import Mathlib

/-!
# Verification of the RAG chatbot tool-orchestration engine

Shallow embedding of `backend/search_tools.py` and `backend/ai_generator.py`:
the tool registry (`ToolManager`), the two concrete tools
(`CourseSearchTool`, `CourseOutlineTool`) and the sequential tool-calling
orchestrator (`AIGenerator.generate_response`).

External collaborators (the vector store and the completion API) are modelled
as explicit function-valued parameters; a Python exception raised by a
collaborator or by a tool is an `Except.error` carrying the exception text.
Python truthiness of optional strings and integers (`if course_name:`,
`if lesson_number:`, `if results.error:`) is modelled explicitly, since
`""`, `0` and `None` are all falsy.
-/

namespace RagChat

/-- Python truthiness of an `Optional[str]`: `None` and `""` are falsy. -/
def truthyStr : Option String → Bool
  | none => false
  | some s => !(s == "")

/-- Python truthiness of an `Optional[int]`: `None` and `0` are falsy. -/
def truthyInt : Option Int → Bool
  | none => false
  | some n => !(n == 0)

/-- A provenance ("source") record: display text plus optional link.
Mirrors the dicts built in `CourseSearchTool._format_results` and
`CourseOutlineTool.execute`. -/
structure Source where
  text : String
  link : Option String
deriving Repr, DecidableEq

/-! ## Vector-store collaborator interface (backend/vector_store.py is external) -/

/-- Metadata dict attached to one search match; `meta.get` with defaults is
modelled by the `Option` fields. -/
structure SearchMeta where
  course_title : Option String
  lesson_number : Option Int
deriving Repr, DecidableEq

/-- Result set of `VectorStore.search`. -/
structure SearchResults where
  documents : List String
  metadata : List SearchMeta
  error : Option String
deriving Repr, DecidableEq

/-- Modelled from the spec: `vector_store.py` is not part of the sources
under verification; per the retrieval-collaborator contract, `search`
"returns a result set or an error string" and an empty result set is one
with no matches, so `is_empty` holds exactly when the document list is
empty (the repository tests construct empty results as
`SearchResults(documents=[], metadata=[], distances=[])`). -/
def SearchResults.is_empty (r : SearchResults) : Bool :=
  r.documents.isEmpty

/-- The slice of the vector-store collaborator used by `CourseSearchTool`. -/
structure VStore where
  search : String → Option String → Option Int → SearchResults
  get_lesson_link : String → Int → Option String

/-! ## CourseSearchTool (backend/search_tools.py lines 20-124) -/

namespace CourseSearchTool

/-- One iteration of the loop in `_format_results`: builds the
`[Course - Lesson N]` header block and the per-match source record. -/
def format_one (store : VStore) (doc : String) (meta : SearchMeta) :
    String × Source :=
  let course_title := meta.course_title.getD "unknown"
  let header :=
    "[" ++ course_title ++
      (match meta.lesson_number with
       | some n => " - Lesson " ++ toString n
       | none => "") ++ "]"
  let source_text := course_title ++
    (match meta.lesson_number with
     | some n => " - Lesson " ++ toString n
     | none => "")
  let lesson_link :=
    match meta.lesson_number with
    | some n => if course_title ≠ "unknown" then store.get_lesson_link course_title n else none
    | none => none
  -- Python: `if lesson_link:` — an empty-string link is falsy and dropped
  let link := match lesson_link with
    | some l => if l ≠ "" then some l else none
    | none => none
  (header ++ "\n" ++ doc, { text := source_text, link := link })

/-- Embedding of `CourseSearchTool._format_results`: formats blocks joined by blank lines
and returns the new `last_sources` batch (one record per match). -/
def _format_results (store : VStore) (results : SearchResults) :
    String × List Source :=
  let pairs := (results.documents.zip results.metadata).map
    (fun p => format_one store p.1 p.2)
  (String.intercalate "\n\n" (pairs.map Prod.fst), pairs.map Prod.snd)

/-- Embedding of `CourseSearchTool.execute`. The tool instance state is the mutable
`last_sources` field, passed in and returned explicitly: the result is
`(returned text, last_sources after the call)`. -/
def execute (store : VStore) (last_sources : List Source)
    (query : String) (course_name : Option String) (lesson_number : Option Int) :
    String × List Source :=
  let results := store.search query course_name lesson_number
  if truthyStr results.error then
    (results.error.getD "", last_sources)
  else if results.is_empty then
    let filter_info :=
      (if truthyStr course_name then
        " in course \x27" ++ course_name.getD "" ++ "\x27" else "") ++
      (if truthyInt lesson_number then
        " in lesson " ++ toString (lesson_number.getD 0) else "")
    ("No relevant content found" ++ filter_info ++ ".", last_sources)
  else
    _format_results store results

end CourseSearchTool

/-! ## CourseOutlineTool (backend/search_tools.py lines 127-208) -/

/-- One lesson dict from the parsed `lessons_json`; `lesson.get` defaults are
modelled by the `Option` fields. -/
structure Lesson where
  lesson_number : Option Int
  lesson_title : Option String
deriving Repr, DecidableEq

/-- Course metadata dict held in the catalog. `lessons_json` is a JSON string
in the source; here it is modelled by its `json.loads` outcome: `none` when
the field is missing or the string is empty (both falsy), `some (.error e)`
when parsing raises, `some (.ok lessons)` when it parses to a lesson list. -/
structure CourseMeta where
  course_link : Option String
  lessons_json : Option (Except String (List Lesson))

/-- The slice of the vector-store collaborator used by `CourseOutlineTool`:
`_resolve_course_name` and `course_catalog.get(ids=[title])`, each of which
may raise (`Except.error`). The catalog result models the falsy checks
`not results or not results[metadatas-key] or not results[metadatas-key][0]`:
outer `none` is a falsy result, the list is the metadatas, an element `none`
is a falsy metadata dict. -/
structure OutlineStore where
  _resolve_course_name : String → Except String (Option String)
  catalog_get : String → Except String (Option (List (Option CourseMeta)))

namespace CourseOutlineTool

/-- Sort key: `x.get(lesson-number-key, 0)`. -/
def lessonKey (l : Lesson) : Int := l.lesson_number.getD 0

/-- Comparison used by the stable ascending sort on lesson number. -/
def lessonLE (a b : Lesson) : Bool := lessonKey a ≤ lessonKey b

/-- Embedding of `sorted(lessons, key=lambda x: x.get(lesson-number-key, 0))`: Python
`sorted` is a stable ascending sort, embedded as the (stable) `mergeSort`. -/
def sorted_lessons (lessons : List Lesson) : List Lesson :=
  lessons.mergeSort lessonLE

/-- One line `"{num}. {title}\n"` of the numbered lesson list, with the
`get` defaults `?` and `Untitled`. -/
def renderLesson (l : Lesson) : String :=
  (match l.lesson_number with
   | some n => toString n
   | none => "?") ++ ". " ++ l.lesson_title.getD "Untitled" ++ "\n"

/-- The `formatted_output` string built by `CourseOutlineTool.execute`. -/
def format_outline (title : String) (course_link : Option String)
    (lessons : List Lesson) : String :=
  "**" ++ title ++ "**\n" ++
  (if truthyStr course_link then
    "Course Link: " ++ course_link.getD "" ++ "\n" else "") ++
  "\n**Lessons (" ++ toString lessons.length ++ " total):**\n" ++
  String.join ((sorted_lessons lessons).map renderLesson)

/-- Embedding of `CourseOutlineTool.execute`. The name-resolution step runs outside the
`try` block, so an exception there propagates (`Except.error`); everything
from the catalog fetch onward is inside `try` and is converted to the
diagnostic text. Result on success: `(returned text, last_sources after)`. -/
def execute (store : OutlineStore) (last_sources : List Source)
    (course_name : String) : Except String (String × List Source) :=
  match store._resolve_course_name course_name with
  | .error e => .error e
  | .ok course_title =>
    if !truthyStr course_title then
      .ok ("No course found matching \x27" ++ course_name ++ "\x27", last_sources)
    else
      let title := course_title.getD ""
      .ok (match store.catalog_get title with
      | .error e => ("Error retrieving course outline: " ++ e, last_sources)
      | .ok none => ("Course metadata not found for \x27" ++ title ++ "\x27", last_sources)
      | .ok (some []) => ("Course metadata not found for \x27" ++ title ++ "\x27", last_sources)
      | .ok (some (none :: _)) => ("Course metadata not found for \x27" ++ title ++ "\x27", last_sources)
      | .ok (some (some metadata :: _)) =>
        match metadata.lessons_json with
        | none => ("No lesson information available for \x27" ++ title ++ "\x27", last_sources)
        | some (.error e) => ("Error retrieving course outline: " ++ e, last_sources)
        | some (.ok lessons) =>
          let source_obj : Source :=
            { text := title ++ " - Course Outline",
              link := match metadata.course_link with
                | some l => if l ≠ "" then some l else none
                | none => none }
          (format_outline title metadata.course_link lessons, [source_obj]))

end CourseOutlineTool

/-! ## ToolManager (backend/search_tools.py lines 211-249) -/

/-- A registered tool as the `ToolManager` sees it: the `name` field of its
declared definition, its `execute` behaviour over opaque keyword arguments
(which may raise), and its `last_sources` attribute (`none` when the tool
has no such attribute, for the `hasattr` check). -/
structure MTool where
  def_name : Option String
  exec : String → Except String String
  last_sources : Option (List Source)

/-- Python-dict assignment `d[k] = v` on an insertion-ordered association
list: an existing key keeps its position, a new key is appended. -/
def dictInsert (d : List (String × MTool)) (k : String) (v : MTool) :
    List (String × MTool) :=
  match d with
  | [] => [(k, v)]
  | (k0, v0) :: rest =>
    if k0 = k then (k0, v) :: rest else (k0, v0) :: dictInsert rest k v

/-- The `ToolManager`: its `self.tools` dict, insertion-ordered. -/
structure ToolManager where
  tools : List (String × MTool)

namespace ToolManager

/-- Embedding of `ToolManager.register_tool`: raises `ValueError` when the definition has
a falsy `name`; otherwise `self.tools[tool_name] = tool`. -/
def register_tool (m : ToolManager) (tool : MTool) : Except String ToolManager :=
  if !truthyStr tool.def_name then
    .error "Tool must have a \x27name\x27 in its definition"
  else
    .ok { tools := dictInsert m.tools (tool.def_name.getD "") tool }

/-- Embedding of `ToolManager.get_tool_definitions`, projected to the `name` fields of the
returned definitions (schema-listing order). -/
def get_tool_definitions (m : ToolManager) : List (Option String) :=
  m.tools.map (fun p => p.2.def_name)

/-- Embedding of `ToolManager.execute_tool`: not-found is in-band text; a raise in the
tool's `execute` propagates to the caller. -/
def execute_tool (m : ToolManager) (tool_name : String) (kwargs : String) :
    Except String String :=
  match m.tools.lookup tool_name with
  | none => .ok ("Tool \x27" ++ tool_name ++ "\x27 not found")
  | some t => t.exec kwargs

/-- The scan of `ToolManager.get_last_sources` over the dict values:
first tool that has a `last_sources` attribute holding a truthy
(non-empty) list wins. -/
def scan_sources : List (String × MTool) → List Source
  | [] => []
  | (_, t) :: rest =>
    match t.last_sources with
    | some l => if l.isEmpty then scan_sources rest else l
    | none => scan_sources rest

/-- Embedding of `ToolManager.get_last_sources`. -/
def get_last_sources (m : ToolManager) : List Source :=
  scan_sources m.tools

/-- Embedding of `ToolManager.reset_sources`: sets `last_sources = []` on every tool that
has the attribute. -/
def reset_sources (m : ToolManager) : ToolManager :=
  { tools := m.tools.map (fun p =>
      (p.1, { p.2 with last_sources :=
        match p.2.last_sources with
        | some _ => some []
        | none => none })) }

end ToolManager

/-! ## AIGenerator (backend/ai_generator.py)

The completion-API client is modelled as a function from the call index
(number of completion calls already made in this invocation) to either a
response or a raised exception, so one value describes the collaborator's
behaviour over the whole invocation. The generator's observable effects are
collected in a trace: for each completion call whether the tool schema list
and automatic tool choice were attached, and each tool dispatch attempted. -/

/-- A `tool_use` content block of an assistant response: correlation id,
tool name and (opaque, serialised) input object. -/
structure ToolUseBlock where
  id : String
  name : String
  input : String
deriving Repr, DecidableEq

/-- One content block of a completion-API response. -/
inductive ContentBlock where
  | text : String → ContentBlock
  | toolUse : ToolUseBlock → ContentBlock
deriving Repr, DecidableEq

/-- A `tool_result` block fed back to the model. -/
structure ToolResult where
  tool_use_id : String
  content : String
  is_error : Bool
deriving Repr, DecidableEq

/-- Content of one conversation message. -/
inductive MsgContent where
  | text : String → MsgContent
  | blocks : List ContentBlock → MsgContent
  | toolResults : List ToolResult → MsgContent
deriving Repr, DecidableEq

/-- One conversation message. -/
structure Message where
  role : String
  content : MsgContent
deriving Repr, DecidableEq

/-- A completion-API response. -/
structure Response where
  content : List ContentBlock
  stop_reason : String
deriving Repr, DecidableEq

/-- Behaviour of the completion API over one `generate_response` invocation:
the `k`-th call (0-based) either raises or returns a response. -/
def Client := Nat → Except String Response

/-- Behaviour of `tool_manager.execute_tool(name, **input)` as the generator
sees it: may raise. -/
def ToolExec := String → String → Except String String

/-- The `ToolCallState` dataclass. -/
structure ToolCallState where
  current_round : Nat := 0
  max_rounds : Nat := 2
  messages : List Message := []
  tools_executed : List String := []
deriving Repr, DecidableEq

/-- Embedding of `ToolCallState.is_complete`. -/
def ToolCallState.is_complete (s : ToolCallState) : Bool :=
  s.current_round ≥ s.max_rounds

/-- Embedding of `ToolCallState.add_tool_execution`. -/
def ToolCallState.add_tool_execution (s : ToolCallState) (tool_name : String) :
    ToolCallState :=
  { s with tools_executed :=
      s.tools_executed ++ ["Round " ++ toString s.current_round ++ ": " ++ tool_name] }

/-- The static system prompt (`AIGenerator.SYSTEM_PROMPT`); its prose does
not influence any control decision, only the strings passed to the
completion API. -/
def SYSTEM_PROMPT : String :=
  " You are an AI assistant specialized in course materials and educational content with access to comprehensive tools for course information.\n"
  ++ "[tool usage guidelines, tool selection rules and response protocol prose]\n"

/-- Embedding of `AIGenerator._get_round_system_prompt`. -/
def _get_round_system_prompt (base_system_content : String) (round_number : Nat) :
    String :=
  let round_guidance :=
    if round_number = 1 then
      "\nThis is your first opportunity to use tools. Consider what information you need to fully answer the user\x27s question and gather initial data."
    else if round_number = 2 then
      "\nThis is your second and final opportunity to use tools. Based on previous results, determine if additional information is needed to complete your answer."
    else
      "\nTool calling rounds are complete. Provide your final answer based on all available information."
  base_system_content ++ round_guidance

/-- Accessing `response.content[0].text`: raises `IndexError` on an empty
list and `AttributeError` when the first block is a tool-use block; both
raises land in the enclosing `try`. -/
def firstText : List ContentBlock → Except String String
  | [] => .error "list index out of range"
  | .text t :: _ => .ok t
  | .toolUse _ :: _ => .error "ToolUseBlock object has no attribute text"

/-- Outcome of `_execute_round_tools`: the updated state, the tool-result
blocks accumulated, the names dispatched (instrumentation), and the error
message when a dispatch raised. -/
structure RoundToolsOut where
  state : ToolCallState
  results : List ToolResult
  dispatches : List String
  error : Option String
deriving Repr

/-- The block loop of `AIGenerator._execute_round_tools`: dispatches each
`tool_use` block in order; on the first raise, records the error result and
stops without attempting further blocks. -/
def round_tools_loop (execTool : ToolExec) :
    List ContentBlock → ToolCallState → List ToolResult → List String → RoundToolsOut
  | [], state, results, dispatches =>
    { state := state, results := results, dispatches := dispatches, error := none }
  | .text _ :: rest, state, results, dispatches =>
    round_tools_loop execTool rest state results dispatches
  | .toolUse b :: rest, state, results, dispatches =>
    match execTool b.name b.input with
    | .ok tool_result =>
      round_tools_loop execTool rest (state.add_tool_execution b.name)
        (results ++ [{ tool_use_id := b.id, content := tool_result, is_error := false }])
        (dispatches ++ [b.name])
    | .error e =>
      let error_msg := "Tool " ++ b.name ++ " failed: " ++ e
      { state := state,
        results := results ++ [{ tool_use_id := b.id, content := error_msg, is_error := true }],
        dispatches := dispatches ++ [b.name],
        error := some error_msg }

/-- Embedding of `AIGenerator._execute_round_tools`: on success the
accumulated tool results are appended to the message history as one user
turn (only when non-empty); on a dispatch error the history is left without
them, so partial results are never fed back to the model. -/
def _execute_round_tools (execTool : ToolExec) (response : Response)
    (state : ToolCallState) : ToolCallState × List String × Option String :=
  let out := round_tools_loop execTool response.content state [] []
  match out.error with
  | some e => (out.state, out.dispatches, some e)
  | none =>
    if out.results.isEmpty then (out.state, out.dispatches, none)
    else
      ({ out.state with messages :=
          out.state.messages ++ [{ role := "user", content := .toolResults out.results }] },
       out.dispatches, none)

/-- Instrumentation collected while running `generate_response`: for each
completion-API call, whether the tool schema list (with automatic tool
choice) was attached, and the tool names dispatched, in order. -/
structure GenTrace where
  apiCalls : List Bool
  dispatches : List String
deriving Repr, DecidableEq

/-- Result of `generate_response`: the returned answer string, the final
`ToolCallState`, and the instrumentation trace. -/
structure GenResult where
  answer : String
  state : ToolCallState
  trace : GenTrace
deriving Repr

/-- The final completion call made after the round bound is reached
(`ai_generator.py` lines 161-174): tools are not attached; a raise is
converted to the final-response error text. -/
def final_call (client : Client) (callIdx : Nat) (state : ToolCallState)
    (trace : GenTrace) : GenResult :=
  let trace := { trace with apiCalls := trace.apiCalls ++ [false] }
  match client callIdx with
  | .error e =>
    { answer := "Error generating final response: " ++ e, state := state, trace := trace }
  | .ok final_response =>
    match firstText final_response.content with
    | .ok t => { answer := t, state := state, trace := trace }
    | .error e =>
      { answer := "Error generating final response: " ++ e, state := state, trace := trace }

/-- The `while not state.is_complete()` loop of `generate_response`. The
fuel argument equals `max_rounds - current_round` and only certifies
termination; the loop exit itself is the source's `is_complete` check. -/
def generate_loop (client : Client) (execTool : Option ToolExec) (hasTools : Bool)
    (system_content : String) :
    Nat → Nat → ToolCallState → GenTrace → GenResult
  | 0, callIdx, state, trace => final_call client callIdx state trace
  | fuel + 1, callIdx, state, trace =>
    if state.is_complete then final_call client callIdx state trace
    else
      let state := { state with current_round := state.current_round + 1 }
      let toolsAttached := hasTools && decide (state.current_round ≤ state.max_rounds)
      let trace := { trace with apiCalls := trace.apiCalls ++ [toolsAttached] }
      match client callIdx with
      | .error e =>
        { answer := "Error generating response: " ++ e, state := state, trace := trace }
      | .ok response =>
        let state := { state with messages :=
          state.messages ++ [{ role := "assistant", content := .blocks response.content }] }
        match execTool, decide (response.stop_reason = "tool_use") with
        | some et, true =>
          let (state', dispatches, tool_error) := _execute_round_tools et response state
          let trace := { trace with dispatches := trace.dispatches ++ dispatches }
          match tool_error with
          | some e =>
            { answer := "Unable to complete search: " ++ e, state := state', trace := trace }
          | none => generate_loop client execTool hasTools system_content fuel
              (callIdx + 1) state' trace
        | _, _ =>
          match firstText response.content with
          | .ok t => { answer := t, state := state, trace := trace }
          | .error e =>
            { answer := "Error generating response: " ++ e, state := state, trace := trace }

/-- Embedding of `AIGenerator.generate_response`. `tools` is the optional
schema list (`none` for Python `None`); `tool_manager` is the optional
dispatcher. Every completion call and tool dispatch sits inside the
source's `try` blocks, so the result is a plain `GenResult`, never a raise. -/
def generate_response (client : Client) (query : String)
    (conversation_history : Option String) (tools : Option (List String))
    (tool_manager : Option ToolExec) : GenResult :=
  let state : ToolCallState :=
    { messages := [{ role := "user", content := .text query }], max_rounds := 2 }
  let system_content :=
    if truthyStr conversation_history then
      SYSTEM_PROMPT ++ "\n\nPrevious conversation:\n" ++ conversation_history.getD ""
    else SYSTEM_PROMPT
  let hasTools := match tools with
    | none => false
    | some l => !l.isEmpty
  generate_loop client tool_manager hasTools system_content
    (state.max_rounds - state.current_round) 0 state
    { apiCalls := [], dispatches := [] }

/-! ## Concrete collaborator behaviours used to instantiate the theorems -/

/-- A store whose search finds nothing (no error, no documents). -/
def wStoreEmpty : VStore :=
  { search := fun _ _ _ => { documents := [], metadata := [], error := none },
    get_lesson_link := fun _ _ => none }

/-- A store whose search returns two matches. -/
def wStoreHit : VStore :=
  { search := fun _ _ _ =>
      { documents := ["d1", "d2"],
        metadata := [{ course_title := some "C", lesson_number := some 3 },
                     { course_title := some "C", lesson_number := none }],
        error := none },
    get_lesson_link := fun _ _ => some "http://lesson" }

/-- A stale provenance record left over from an earlier query. -/
def wOldSource : Source := { text := "old", link := none }

/-- An outline store whose name resolution raises. -/
def wResolveBoom : OutlineStore :=
  { _resolve_course_name := fun _ => .error "resolve-boom",
    catalog_get := fun _ => .ok none }

/-- An outline store whose catalog fetch raises after resolution succeeds. -/
def wCatalogBoom : OutlineStore :=
  { _resolve_course_name := fun _ => .ok (some "T"),
    catalog_get := fun _ => .error "catalog-boom" }

/-- An outline store whose lesson JSON fails to parse. -/
def wParseBoom : OutlineStore :=
  { _resolve_course_name := fun _ => .ok (some "T"),
    catalog_get := fun _ => .ok (some [some
      { course_link := none, lessons_json := some (.error "parse-boom") }]) }

/-- An outline store holding lessons `[(2, B), (1, A)]` in that order. -/
def wOutlineBA : OutlineStore :=
  { _resolve_course_name := fun _ => .ok (some "T"),
    catalog_get := fun _ => .ok (some [some
      { course_link := none,
        lessons_json := some (.ok
          [{ lesson_number := some 2, lesson_title := some "B" },
           { lesson_number := some 1, lesson_title := some "A" }]) }]) }

/-- A registered tool named `a` holding a non-empty provenance batch. -/
def wToolA : MTool :=
  { def_name := some "a", exec := fun _ => .ok "ra",
    last_sources := some [{ text := "srcA", link := none }] }

/-- A registered tool named `b` also holding a non-empty provenance batch. -/
def wToolB : MTool :=
  { def_name := some "b", exec := fun _ => .ok "rb",
    last_sources := some [{ text := "srcB", link := none }] }

/-- A replacement tool that declares the already-registered name `a`. -/
def wToolA2 : MTool :=
  { def_name := some "a", exec := fun _ => .ok "ra2", last_sources := some [] }

/-- A manager with tools `a` then `b` registered, both with stale batches. -/
def wMgr2 : ToolManager := { tools := [("a", wToolA), ("b", wToolB)] }

/-- A manager whose only registered tool holds an empty batch. -/
def wMgrEmpty : ToolManager := { tools := [("a", wToolA2)] }

/-- The manager `wMgr2` after re-registering name `a` with the new tool. -/
def wMgr2' : ToolManager := { tools := [("a", wToolA2), ("b", wToolB)] }

/-- A completion client that requests one tool in round 1, one in round 2,
and then answers with text. -/
def wClient3 : Client := fun k =>
  if k = 0 then .ok { content := [.toolUse { id := "i1", name := "search_course_content", input := "q1" }],
                      stop_reason := "tool_use" }
  else if k = 1 then .ok { content := [.toolUse { id := "i2", name := "get_course_outline", input := "q2" }],
                           stop_reason := "tool_use" }
  else .ok { content := [.text "final answer"], stop_reason := "end_turn" }

/-- A completion client that answers directly with text on the first call. -/
def wClientText : Client := fun _ =>
  .ok { content := [.text "direct answer"], stop_reason := "end_turn" }

/-- A completion client that raises on every call. -/
def wClientBoom : Client := fun _ => .error "api-boom"

/-- A completion client requesting tools in round 1 and raising on call 1. -/
def wClientBoom2 : Client := fun k =>
  if k = 0 then .ok { content := [.toolUse { id := "i1", name := "search_course_content", input := "q1" }],
                      stop_reason := "tool_use" }
  else .error "api-boom-2"

/-- A completion client requesting tools in rounds 1 and 2 and raising on
the final tools-disabled call. -/
def wClientBoomFinal : Client := fun k =>
  if k = 2 then .error "api-boom-final"
  else .ok { content := [.toolUse { id := "i", name := "search_course_content", input := "q" }],
             stop_reason := "tool_use" }

/-- A tool dispatcher whose every dispatch succeeds. -/
def wExecOk : ToolExec := fun _ _ => .ok "tool result"

/-- A tool dispatcher whose every dispatch raises. -/
def wExecBoom : ToolExec := fun n _ => .error ("boom-" ++ n)

/-! ## Theorems -/

/-- Helper: a string starting with the no-content prefix is never empty. -/
theorem no_content_ne_empty (a : String) :
    ("No relevant content found" ++ a ++ ".") ≠ "" := by
  intro hc
  have hlen := congrArg String.length hc
  have h1 : ("No relevant content found" : String).length = 25 := rfl
  have h2 : ("." : String).length = 1 := rfl
  have h3 : ("" : String).length = 0 := rfl
  simp only [String.length_append, h1, h2, h3] at hlen
  omega

/-- Helper: on an error-free search with no matches, `execute` takes the
no-relevant-content path and leaves the provenance batch untouched. -/
theorem execute_empty_path (store : VStore) (prior : List Source) (q : String)
    (cn : Option String) (ln : Option Int)
    (he : (store.search q cn ln).error = none)
    (hd : (store.search q cn ln).documents = []) :
    CourseSearchTool.execute store prior q cn ln =
      ("No relevant content found" ++
        ((if truthyStr cn then " in course \x27" ++ cn.getD "" ++ "\x27" else "") ++
         (if truthyInt ln then " in lesson " ++ toString (ln.getD 0) else "")) ++ ".",
       prior) := by
  have he' : truthyStr (store.search q cn ln).error = false := by rw [he]; rfl
  simp [CourseSearchTool.execute, he', SearchResults.is_empty, hd]

/-- C6 counterexample: a lesson filter of 0 is an applied filter that the
no-relevant-content message does not name: Python `if lesson_number:` is
falsy at 0, so the output is the bare message, identical to the output of
the same call with no lesson filter at all. -/
theorem C6_counterexample :
    CourseSearchTool.execute wStoreEmpty [] "q" none (some 0) =
      ("No relevant content found.", []) ∧
    (CourseSearchTool.execute wStoreEmpty [] "q" none (some 0)).1 =
      (CourseSearchTool.execute wStoreEmpty [] "q" none none).1 :=
  ⟨rfl, rfl⟩

/-- C6 amended: an error-free search with no matches makes
`CourseSearchTool.execute` return the literal no-relevant-content message
that names each truthy applied filter — the course filter when the course
name is a non-empty string, the lesson filter when the lesson number is
non-zero — and omits falsy ones, is never the empty string, and leaves the
provenance batch as it was (so empty when it was empty before); with course
filter `X` and no lesson filter the output is exactly the expected literal,
and with course filter `X` and lesson filter 3 both filters are named. -/
theorem C6_empty_search_message (store : VStore) (q : String)
    (h1 : (store.search q (some "X") none).error = none)
    (h2 : (store.search q (some "X") none).documents = []) :
    CourseSearchTool.execute store [] q (some "X") none =
      ("No relevant content found in course \x27X\x27.", []) ∧
    (∀ (prior : List Source) (cn : Option String) (ln : Option Int),
      (store.search q cn ln).error = none →
      (store.search q cn ln).documents = [] →
      CourseSearchTool.execute store prior q cn ln =
        ("No relevant content found" ++
          ((if truthyStr cn then
            " in course \x27" ++ cn.getD "" ++ "\x27" else "") ++
           (if truthyInt ln then
            " in lesson " ++ toString (ln.getD 0) else "")) ++ ".",
         prior) ∧
      (CourseSearchTool.execute store prior q cn ln).1 ≠ "") ∧
    CourseSearchTool.execute wStoreEmpty [] "q" (some "X") (some 3) =
      ("No relevant content found in course \x27X\x27 in lesson 3.", []) := by
  refine ⟨?_, ?_, rfl⟩
  · rw [execute_empty_path store [] q (some "X") none h1 h2]
    rfl
  · intro prior cn ln he hd
    refine ⟨execute_empty_path store prior q cn ln he hd, ?_⟩
    rw [execute_empty_path store prior q cn ln he hd]
    exact no_content_ne_empty _

/-- C6 witness: the amended theorem instantiated at a store that finds
nothing, including the general conjunct at a truthy lesson filter whose
message names the lesson and whose stale batch is preserved. -/
theorem C6_empty_search_message_witness :
    CourseSearchTool.execute wStoreEmpty [] "q" (some "X") none =
      ("No relevant content found in course \x27X\x27.", []) ∧
    (CourseSearchTool.execute wStoreEmpty [wOldSource] "q" none (some 3)).1 =
      "No relevant content found in lesson 3." ∧
    (CourseSearchTool.execute wStoreEmpty [wOldSource] "q" none (some 3)).2 =
      [wOldSource] := by
  have h := C6_empty_search_message wStoreEmpty "q" rfl rfl
  have hg := (h.2.1 [wOldSource] none (some 3) rfl rfl).1
  refine ⟨h.1, ?_, ?_⟩
  · rw [hg]
    rfl
  · rw [hg]

/-- C4 counterexample: an execute whose search finds nothing does not
overwrite the held batch: the stale record from an earlier execution is
still there afterwards, although the call had zero matches. -/
theorem C4_counterexample :
    (CourseSearchTool.execute wStoreEmpty [wOldSource] "q" (some "X") none).2
      = [wOldSource] ∧ [wOldSource] ≠ ([] : List Source) := by
  constructor
  · rfl
  · simp

/-- C4 amended: only an execute whose search returns a non-empty error-free
result set overwrites `last_sources`, installing exactly one record per
match and discarding the previously held batch; an execute whose search
errors or finds nothing leaves the batch untouched; the batch is cleared
only by the explicit reset operation. -/
theorem C4_sources_overwrite (store : VStore) (prior : List Source) (q : String)
    (cn : Option String) (ln : Option Int) :
    (truthyStr (store.search q cn ln).error = false →
      (store.search q cn ln).documents ≠ [] →
      (CourseSearchTool.execute store prior q cn ln).2 =
        (((store.search q cn ln).documents.zip (store.search q cn ln).metadata).map
          (fun p => (CourseSearchTool.format_one store p.1 p.2).2))) ∧
    (truthyStr (store.search q cn ln).error = true →
      (CourseSearchTool.execute store prior q cn ln).2 = prior) ∧
    (truthyStr (store.search q cn ln).error = false →
      (store.search q cn ln).documents = [] →
      (CourseSearchTool.execute store prior q cn ln).2 = prior) := by
  refine ⟨fun he hd => ?_, fun he => ?_, fun he hd => ?_⟩
  · simp [CourseSearchTool.execute, he, SearchResults.is_empty,
      List.isEmpty_iff, hd, CourseSearchTool._format_results]
  · simp [CourseSearchTool.execute, he]
  · simp [CourseSearchTool.execute, he, SearchResults.is_empty, hd]

/-- C4 witness: the amended theorem instantiated at a store with two
matches and at the no-match store, each with a stale prior batch. -/
theorem C4_sources_overwrite_witness :
    (CourseSearchTool.execute wStoreHit [wOldSource] "q" none none).2 =
      [{ text := "C - Lesson 3", link := some "http://lesson" },
       { text := "C", link := none }] ∧
    (CourseSearchTool.execute wStoreEmpty [wOldSource] "q" none none).2 =
      [wOldSource] := by
  constructor
  · exact ((C4_sources_overwrite wStoreHit [wOldSource] "q" none none).1
      (by rfl) (by simp [wStoreHit])).trans (by rfl)
  · exact (C4_sources_overwrite wStoreEmpty [wOldSource] "q" none none).2.2
      (by rfl) (by rfl)

/-- Helper: the provenance scan returns the empty list when every
registered tool's batch is empty or absent. -/
theorem scan_sources_all_empty (l : List (String × MTool))
    (h : ∀ p ∈ l, ∀ s, p.2.last_sources = some s → s = []) :
    ToolManager.scan_sources l = [] := by
  induction l with
  | nil => rfl
  | cons p rest ih =>
    obtain ⟨k0, t0⟩ := p
    have ih' := ih (fun p hp s hs => h p (List.mem_cons_of_mem _ hp) s hs)
    cases hls : t0.last_sources with
    | none => simpa [ToolManager.scan_sources, hls] using ih'
    | some s =>
      have hs : s = [] := h (k0, t0) (List.mem_cons_self _ _) s hls
      subst hs
      simpa [ToolManager.scan_sources, hls] using ih'

/-- Helper: the provenance scan returns the first non-empty batch when all
earlier tools hold empty or absent batches. -/
theorem scan_sources_first (pre post : List (String × MTool)) (k : String)
    (t : MTool) (l : List Source)
    (ht : t.last_sources = some l) (hl : l ≠ [])
    (hpre : ∀ p ∈ pre, ∀ s, p.2.last_sources = some s → s = []) :
    ToolManager.scan_sources (pre ++ (k, t) :: post) = l := by
  induction pre with
  | nil =>
    simp [ToolManager.scan_sources, ht, List.isEmpty_iff, hl]
  | cons p rest ih =>
    obtain ⟨k0, t0⟩ := p
    have ih' := ih (fun p hp s hs => hpre p (List.mem_cons_of_mem _ hp) s hs)
    cases hls : t0.last_sources with
    | none => simpa [ToolManager.scan_sources, hls] using ih'
    | some s =>
      have hs : s = [] := hpre (k0, t0) (List.mem_cons_self _ _) s hls
      subst hs
      simpa [ToolManager.scan_sources, hls] using ih'

/-- C5: `get_last_sources` returns the empty list when every registered
tool's batch is empty, and otherwise returns the batch of the
first-registered tool holding a non-empty one — later tools' batches are
never merged in. -/
theorem C5_first_nonempty_batch (m : ToolManager) :
    ((∀ p ∈ m.tools, ∀ s, p.2.last_sources = some s → s = []) →
      m.get_last_sources = []) ∧
    (∀ (pre post : List (String × MTool)) (k : String) (t : MTool)
        (l : List Source),
      m.tools = pre ++ (k, t) :: post →
      t.last_sources = some l → l ≠ [] →
      (∀ p ∈ pre, ∀ s, p.2.last_sources = some s → s = []) →
      m.get_last_sources = l) := by
  constructor
  · intro h
    exact scan_sources_all_empty m.tools h
  · intro pre post k t l hsplit ht hl hpre
    unfold ToolManager.get_last_sources
    rw [hsplit]
    exact scan_sources_first pre post k t l ht hl hpre

/-- C5 witness: with tools `a` and `b` both holding non-empty batches only
the first-registered batch is returned, and a manager whose only batch is
empty yields the empty list. -/
theorem C5_first_nonempty_batch_witness :
    ToolManager.get_last_sources wMgr2 = [{ text := "srcA", link := none }] ∧
    ToolManager.get_last_sources wMgrEmpty = [] := by
  constructor
  · exact (C5_first_nonempty_batch wMgr2).2 [] [("b", wToolB)] "a" wToolA
      [{ text := "srcA", link := none }] rfl rfl (by simp) (by simp)
  · refine (C5_first_nonempty_batch wMgrEmpty).1 ?_
    intro p hp s hs
    simp only [wMgrEmpty, List.mem_singleton] at hp
    subst hp
    simp only [wToolA2] at hs
    exact (Option.some.injEq _ _ ▸ hs).symm

/-- Helper: Python-dict assignment on an existing key leaves the key
sequence (schema-listing order and count) unchanged. -/
theorem dictInsert_keys (d : List (String × MTool)) (k : String) (v : MTool)
    (h : k ∈ d.map Prod.fst) :
    (dictInsert d k v).map Prod.fst = d.map Prod.fst := by
  induction d with
  | nil => simp at h
  | cons p rest ih =>
    obtain ⟨k0, v0⟩ := p
    by_cases hk : k0 = k
    · simp [dictInsert, hk]
    · have h' : k ∈ rest.map Prod.fst := by
        simp only [List.map_cons, List.mem_cons] at h
        exact h.resolve_left (fun hc => hk hc.symm)
      simp [dictInsert, hk, ih h']

/-- Helper: after a dict assignment, lookup of the key finds the new value. -/
theorem dictInsert_lookup (d : List (String × MTool)) (k : String) (v : MTool) :
    (dictInsert d k v).lookup k = some v := by
  induction d with
  | nil => simp [dictInsert, List.lookup]
  | cons p rest ih =>
    obtain ⟨k0, v0⟩ := p
    by_cases hk : k0 = k
    · simp [dictInsert, hk, List.lookup]
    · have hne : (k == k0) = false :=
        beq_eq_false_iff_ne.mpr (fun hc => hk hc.symm)
      simp [dictInsert, hk, List.lookup, hne, ih]

/-- C10: registering a tool whose declared name is already registered
succeeds without error and silently replaces the earlier registration: the
key sequence (hence the registered-name count and the name's position in
schema-listing order) is unchanged, and dispatch of that name now invokes
the newly registered tool. -/
theorem C10_silent_replace (m : ToolManager) (tool : MTool) (n : String)
    (hn : tool.def_name = some n) (hne : n ≠ "")
    (hmem : n ∈ m.tools.map Prod.fst) :
    m.register_tool tool = .ok { tools := dictInsert m.tools n tool } ∧
    (dictInsert m.tools n tool).map Prod.fst = m.tools.map Prod.fst ∧
    (dictInsert m.tools n tool).lookup n = some tool ∧
    ∀ kwargs,
      ToolManager.execute_tool { tools := dictInsert m.tools n tool } n kwargs =
        tool.exec kwargs := by
  refine ⟨?_, dictInsert_keys _ _ _ hmem, dictInsert_lookup _ _ _, ?_⟩
  · have htr : truthyStr (some n) = true := by simp [truthyStr, hne]
    simp [ToolManager.register_tool, hn, htr]
  · intro kwargs
    simp [ToolManager.execute_tool, dictInsert_lookup]

/-- C10 witness: re-registering name `a` on a manager holding `a` then `b`
keeps the key order `a, b` and dispatch of `a` now runs the new tool. -/
theorem C10_silent_replace_witness :
    wMgr2.register_tool wToolA2 = .ok wMgr2' ∧
    wMgr2'.tools.map Prod.fst = ["a", "b"] ∧
    wMgr2'.execute_tool "a" "x" = .ok "ra2" := by
  have h := C10_silent_replace wMgr2 wToolA2 "a" rfl (by decide) (by simp [wMgr2])
  refine ⟨?_, by simp [wMgr2'], ?_⟩
  · rw [h.1]
    rfl
  · have := h.2.2.2 "x"
    exact this.trans rfl

/-- C9: after name resolution succeeds, every exception raised while
fetching or parsing the course metadata is converted into the literal
diagnostic text, but an exception raised by the name-resolution step itself
propagates out of `CourseOutlineTool.execute` uncaught. -/
theorem C9_outline_error_paths :
    (∀ (store : OutlineStore) (ls : List Source) (cn e : String),
      store._resolve_course_name cn = .error e →
      CourseOutlineTool.execute store ls cn = .error e) ∧
    (∀ (store : OutlineStore) (ls : List Source) (cn title e : String),
      store._resolve_course_name cn = .ok (some title) → title ≠ "" →
      store.catalog_get title = .error e →
      CourseOutlineTool.execute store ls cn =
        .ok ("Error retrieving course outline: " ++ e, ls)) ∧
    (∀ (store : OutlineStore) (ls : List Source) (cn title e : String)
        (meta : CourseMeta) (rest : List (Option CourseMeta)),
      store._resolve_course_name cn = .ok (some title) → title ≠ "" →
      store.catalog_get title = .ok (some (some meta :: rest)) →
      meta.lessons_json = some (.error e) →
      CourseOutlineTool.execute store ls cn =
        .ok ("Error retrieving course outline: " ++ e, ls)) := by
  refine ⟨fun store ls cn e h => ?_, fun store ls cn title e h1 ht h2 => ?_,
    fun store ls cn title e meta rest h1 ht h2 h3 => ?_⟩
  · simp [CourseOutlineTool.execute, h]
  · have htr : truthyStr (some title) = true := by simp [truthyStr, ht]
    simp [CourseOutlineTool.execute, h1, htr, h2]
  · have htr : truthyStr (some title) = true := by simp [truthyStr, ht]
    simp [CourseOutlineTool.execute, h1, htr, h2, h3]

/-- C9 witness: the three paths instantiated at concrete collaborator
behaviours: a raising resolver propagates, a raising catalog fetch and an
unparsable lesson JSON are converted to the diagnostic text. -/
theorem C9_outline_error_paths_witness :
    CourseOutlineTool.execute wResolveBoom [] "c" = .error "resolve-boom" ∧
    CourseOutlineTool.execute wCatalogBoom [] "c" =
      .ok ("Error retrieving course outline: catalog-boom", []) ∧
    CourseOutlineTool.execute wParseBoom [] "c" =
      .ok ("Error retrieving course outline: parse-boom", []) :=
  ⟨C9_outline_error_paths.1 wResolveBoom [] "c" "resolve-boom" rfl,
   C9_outline_error_paths.2.1 wCatalogBoom [] "c" "T" "catalog-boom" rfl
     (by decide) rfl,
   C9_outline_error_paths.2.2 wParseBoom [] "c" "T" "parse-boom"
     { course_link := none, lessons_json := some (.error "parse-boom") } []
     rfl (by decide) rfl rfl⟩

/-- Helper: the lesson comparison is transitive. -/
theorem lessonLE_trans (a b c : Lesson)
    (h1 : CourseOutlineTool.lessonLE a b) (h2 : CourseOutlineTool.lessonLE b c) :
    CourseOutlineTool.lessonLE a c := by
  simp only [CourseOutlineTool.lessonLE, decide_eq_true_eq] at h1 h2 ⊢
  omega

/-- Helper: the lesson comparison is total. -/
theorem lessonLE_total (a b : Lesson) :
    CourseOutlineTool.lessonLE a b || CourseOutlineTool.lessonLE b a := by
  simp only [CourseOutlineTool.lessonLE, Bool.or_eq_true, decide_eq_true_eq]
  omega

/-- C8: the lesson list rendered by the outline tool is sorted ascending by
lesson number; the sort is a stable permutation of the input (ties keep
their original relative order); in particular lessons `[(2, B), (1, A)]`
render lesson 1 (A) before lesson 2 (B), both in the formatter and through
the whole `execute` on a store holding them in that order. -/
theorem C8_outline_sorted_stable (lessons : List Lesson) :
    (CourseOutlineTool.sorted_lessons lessons).Pairwise
      (fun a b => CourseOutlineTool.lessonKey a ≤ CourseOutlineTool.lessonKey b) ∧
    (CourseOutlineTool.sorted_lessons lessons).Perm lessons ∧
    (∀ k : Int,
      (CourseOutlineTool.sorted_lessons lessons).filter
          (fun l => CourseOutlineTool.lessonKey l == k) =
        lessons.filter (fun l => CourseOutlineTool.lessonKey l == k)) ∧
    CourseOutlineTool.format_outline "T" none
        [{ lesson_number := some 2, lesson_title := some "B" },
         { lesson_number := some 1, lesson_title := some "A" }] =
      "**T**\n\n**Lessons (2 total):**\n1. A\n2. B\n" ∧
    CourseOutlineTool.execute wOutlineBA [] "t" =
      .ok ("**T**\n\n**Lessons (2 total):**\n1. A\n2. B\n",
        [{ text := "T - Course Outline", link := none }]) := by
  have hsort : CourseOutlineTool.sorted_lessons
      [{ lesson_number := some 2, lesson_title := some "B" },
       { lesson_number := some 1, lesson_title := some "A" }] =
      [{ lesson_number := some 1, lesson_title := some "A" },
       { lesson_number := some 2, lesson_title := some "B" }] := by
    simp [CourseOutlineTool.sorted_lessons, List.mergeSort,
      CourseOutlineTool.lessonLE, CourseOutlineTool.lessonKey]
  have hfmt : CourseOutlineTool.format_outline "T" none
      [{ lesson_number := some 2, lesson_title := some "B" },
       { lesson_number := some 1, lesson_title := some "A" }] =
      "**T**\n\n**Lessons (2 total):**\n1. A\n2. B\n" := by
    simp only [CourseOutlineTool.format_outline, hsort]
    rfl
  refine ⟨?_, ?_, ?_, hfmt, ?_⟩
  · have h := List.sorted_mergeSort
      lessonLE_trans lessonLE_total lessons
    exact h.imp (fun hab => by
      simpa [CourseOutlineTool.lessonLE, decide_eq_true_eq] using hab)
  · exact List.mergeSort_perm lessons CourseOutlineTool.lessonLE
  · intro k
    set p : Lesson → Bool := fun l => CourseOutlineTool.lessonKey l == k with hp
    have hmemk : ∀ x ∈ lessons.filter p, CourseOutlineTool.lessonKey x = k := by
      intro x hx
      have := (List.mem_filter.mp hx).2
      simpa [hp] using this
    have hpw : (lessons.filter p).Pairwise
        (fun a b => CourseOutlineTool.lessonLE a b = true) := by
      refine List.pairwise_of_forall_mem_list ?_
      intro a ha b hb
      simp only [CourseOutlineTool.lessonLE, decide_eq_true_eq]
      rw [hmemk a ha, hmemk b hb]
    have hsub : List.Sublist (lessons.filter p)
        (lessons.mergeSort CourseOutlineTool.lessonLE) :=
      List.sublist_mergeSort lessonLE_trans lessonLE_total hpw
        (List.filter_sublist lessons)
    have hsub2 : List.Sublist (lessons.filter p)
        ((lessons.mergeSort CourseOutlineTool.lessonLE).filter p) := by
      have := hsub.filter p
      rwa [List.filter_filter, show (fun a => p a && p a) = p from by
        funext a; cases p a <;> simp] at this
    have hlen : ((lessons.mergeSort CourseOutlineTool.lessonLE).filter p).length =
        (lessons.filter p).length :=
      ((List.mergeSort_perm lessons CourseOutlineTool.lessonLE).filter p).length_eq
    exact (hsub2.eq_of_length hlen.symm).symm
  · have hstep : CourseOutlineTool.execute wOutlineBA [] "t" =
        .ok (CourseOutlineTool.format_outline "T" none
          [{ lesson_number := some 2, lesson_title := some "B" },
           { lesson_number := some 1, lesson_title := some "A" }],
          [{ text := "T - Course Outline", link := none }]) := rfl
    rw [hstep, hfmt]

/-- C7: when the model's first response carries no tool-invocation request,
exactly one completion-API call is made and that response's text is
returned unchanged. -/
theorem C7_direct_answer (client : Client) (query : String)
    (hist : Option String) (tools : Option (List String)) (tm : Option ToolExec)
    (resp : Response) (t : String) (rest : List ContentBlock)
    (h0 : client 0 = .ok resp)
    (hstop : resp.stop_reason ≠ "tool_use")
    (hcontent : resp.content = .text t :: rest) :
    (generate_response client query hist tools tm).answer = t ∧
    (generate_response client query hist tools tm).trace.apiCalls.length = 1 := by
  have hd : decide (resp.stop_reason = "tool_use") = false := decide_eq_false hstop
  cases tm with
  | none =>
    simp [generate_response, generate_loop, ToolCallState.is_complete, h0, hd,
      hcontent, firstText]
  | some et =>
    simp [generate_response, generate_loop, ToolCallState.is_complete, h0, hd,
      hcontent, firstText]

/-- C7 witness: a client that answers directly yields its text after one
completion call. -/
theorem C7_direct_answer_witness :
    (generate_response wClientText "q" none (some ["t"]) none).answer =
      "direct answer" ∧
    (generate_response wClientText "q" none (some ["t"]) none).trace.apiCalls.length
      = 1 :=
  C7_direct_answer wClientText "q" none (some ["t"]) none
    { content := [.text "direct answer"], stop_reason := "end_turn" }
    "direct answer" [] rfl (by decide) rfl

/-- Helper: when every block before some failing tool block dispatches
successfully and that block's dispatch raises, the round loop stops at the
failing block: it reports the error, has dispatched exactly the preceding
names plus the failing one, and has not touched the message history. -/
theorem round_tools_loop_fail (et : ToolExec) (bf : ToolUseBlock) (m : String)
    (hfail : et bf.name bf.input = .error m) :
    ∀ (pre : List ToolUseBlock) (rest : List ContentBlock)
      (state : ToolCallState) (results : List ToolResult)
      (dispatches : List String),
      (∀ b ∈ pre, ∃ s, et b.name b.input = .ok s) →
      (round_tools_loop et
          (pre.map ContentBlock.toolUse ++ ContentBlock.toolUse bf :: rest)
          state results dispatches).error =
        some ("Tool " ++ bf.name ++ " failed: " ++ m) ∧
      (round_tools_loop et
          (pre.map ContentBlock.toolUse ++ ContentBlock.toolUse bf :: rest)
          state results dispatches).dispatches =
        dispatches ++ pre.map (fun b => b.name) ++ [bf.name] ∧
      (round_tools_loop et
          (pre.map ContentBlock.toolUse ++ ContentBlock.toolUse bf :: rest)
          state results dispatches).state.messages = state.messages := by
  intro pre
  induction pre with
  | nil =>
    intro rest state results dispatches _
    simp [round_tools_loop, hfail]
  | cons b pre ih =>
    intro rest state results dispatches hpre
    obtain ⟨s, hs⟩ := hpre b (List.mem_cons_self _ _)
    have ih' := ih rest (state.add_tool_execution b.name)
      (results ++ [{ tool_use_id := b.id, content := s, is_error := false }])
      (dispatches ++ [b.name])
      (fun b2 hb2 => hpre b2 (List.mem_cons_of_mem _ hb2))
    simp only [List.map_cons, List.cons_append, round_tools_loop, hs,
      List.append_eq]
    refine ⟨ih'.1, ?_, ?_⟩
    · rw [ih'.2.1]
      simp
    · rw [ih'.2.2]
      simp [ToolCallState.add_tool_execution]

/-- Helper: the same failure scenario through `_execute_round_tools`: the
error is returned, the dispatch list is exactly the attempts made, and the
tool results gathered before the failure are not appended to the message
history. -/
theorem execute_round_tools_fail (et : ToolExec) (resp : Response)
    (pre : List ToolUseBlock) (bf : ToolUseBlock) (rest : List ContentBlock)
    (m : String)
    (hcontent : resp.content =
      pre.map ContentBlock.toolUse ++ ContentBlock.toolUse bf :: rest)
    (hpre : ∀ b ∈ pre, ∃ s, et b.name b.input = .ok s)
    (hfail : et bf.name bf.input = .error m) :
    (∀ state, _execute_round_tools et resp state =
      ((round_tools_loop et resp.content state [] []).state,
       pre.map (fun b => b.name) ++ [bf.name],
       some ("Tool " ++ bf.name ++ " failed: " ++ m))) ∧
    (∀ state,
      (round_tools_loop et resp.content state [] []).state.messages =
        state.messages) := by
  constructor
  · intro state
    have h := round_tools_loop_fail et bf m hfail pre rest state [] [] hpre
    simp only [_execute_round_tools, hcontent]
    rw [h.1]
    simp only [h.2.1, List.nil_append]
  · intro state
    have h := round_tools_loop_fail et bf m hfail pre rest state [] [] hpre
    rw [hcontent]
    exact h.2.2

/-- C2: when a tool dispatch requested in round 1 raises, exactly one
completion-API call is made, no further invocations of that round are
attempted, the tool results gathered before the failure are not fed back
(the history holds only the query and the assistant turn), no round-2 call
occurs, and the returned string is the unable-to-complete message embedding
the failure description. -/
theorem C2_round1_tool_failure (client : Client) (query : String)
    (hist : Option String) (tools : Option (List String)) (et : ToolExec)
    (resp : Response) (pre : List ToolUseBlock) (bf : ToolUseBlock)
    (rest : List ContentBlock) (m : String)
    (h0 : client 0 = .ok resp)
    (hstop : resp.stop_reason = "tool_use")
    (hcontent : resp.content =
      pre.map ContentBlock.toolUse ++ ContentBlock.toolUse bf :: rest)
    (hpre : ∀ b ∈ pre, ∃ s, et b.name b.input = .ok s)
    (hfail : et bf.name bf.input = .error m) :
    (generate_response client query hist tools (some et)).answer =
      "Unable to complete search: Tool " ++ bf.name ++ " failed: " ++ m ∧
    (generate_response client query hist tools (some et)).trace.apiCalls.length
      = 1 ∧
    (generate_response client query hist tools (some et)).trace.dispatches =
      pre.map (fun b => b.name) ++ [bf.name] ∧
    (generate_response client query hist tools (some et)).state.messages =
      [{ role := "user", content := .text query },
       { role := "assistant", content := .blocks resp.content }] := by
  have hd : decide (resp.stop_reason = "tool_use") = true := by
    rw [hstop]; rfl
  have hE := execute_round_tools_fail et resp pre bf rest m hcontent hpre hfail
  simp [generate_response, generate_loop, ToolCallState.is_complete, h0, hd,
    hE.1, hE.2]
  rw [← String.append_assoc, ← String.append_assoc, ← String.append_assoc]
  rfl

/-- Helper: the final tools-disabled call never adds a tool-enabled entry
to the call trace. -/
theorem final_call_count (client : Client) (callIdx : Nat)
    (state : ToolCallState) (trace : GenTrace) :
    ((final_call client callIdx state trace).trace.apiCalls.count true) =
      trace.apiCalls.count true := by
  unfold final_call
  cases client callIdx with
  | error e => simp
  | ok r =>
    cases hf : firstText r.content with
    | ok t => simp [hf]
    | error e => simp [hf]

/-- Helper: appending one call entry adds at most one to the tool-enabled
count. -/
theorem count_true_append_le (l : List Bool) (b : Bool) :
    (l ++ [b]).count true ≤ l.count true + 1 := by
  cases b <;> simp [List.count_append]

/-- Helper: each remaining loop round adds at most one tool-enabled call,
so the tool-enabled count is bounded by the fuel plus what the trace
already holds. -/
theorem generate_loop_count_le (client : Client) (et : Option ToolExec)
    (ht : Bool) (sys : String) :
    ∀ (fuel callIdx : Nat) (state : ToolCallState) (trace : GenTrace),
      ((generate_loop client et ht sys fuel callIdx state trace).trace.apiCalls.count
        true) ≤ trace.apiCalls.count true + fuel := by
  intro fuel
  induction fuel with
  | zero =>
    intro callIdx state trace
    simp [final_call_count, generate_loop]
  | succ fuel ih =>
    intro callIdx state trace
    simp only [generate_loop]
    by_cases hc : state.is_complete
    · simp only [hc, if_true]
      calc ((final_call client callIdx state trace).trace.apiCalls.count true)
          = trace.apiCalls.count true := final_call_count _ _ _ _
        _ ≤ trace.apiCalls.count true + (fuel + 1) := Nat.le_add_right _ _
    · simp only [hc, Bool.false_eq_true, if_false]
      cases hcl : client callIdx with
      | error e =>
        exact le_trans (count_true_append_le trace.apiCalls
          (ht && decide (state.current_round + 1 ≤ state.max_rounds))) (by omega)
      | ok r =>
        cases hsr : decide (r.stop_reason = "tool_use") with
        | false =>
          cases et with
          | none =>
            cases hf : firstText r.content with
            | ok t =>
              simp only [hf]
              exact le_trans (count_true_append_le trace.apiCalls _) (by omega)
            | error e =>
              simp only [hf]
              exact le_trans (count_true_append_le trace.apiCalls _) (by omega)
          | some et0 =>
            simp only [hsr]
            cases hf : firstText r.content with
            | ok t =>
              simp only [hf]
              exact le_trans (count_true_append_le trace.apiCalls _) (by omega)
            | error e =>
              simp only [hf]
              exact le_trans (count_true_append_le trace.apiCalls _) (by omega)
        | true =>
          cases et with
          | none =>
            cases hf : firstText r.content with
            | ok t =>
              simp only [hf]
              exact le_trans (count_true_append_le trace.apiCalls _) (by omega)
            | error e =>
              simp only [hf]
              exact le_trans (count_true_append_le trace.apiCalls _) (by omega)
          | some et0 =>
            simp only [hsr]
            rcases hE : _execute_round_tools et0 r
              { state with
                current_round := state.current_round + 1,
                messages := state.messages ++
                  [{ role := "assistant", content := .blocks r.content }] }
              with ⟨S, D, E⟩
            simp only [hE]
            cases E with
            | some e =>
              exact le_trans (count_true_append_le trace.apiCalls
                (ht && decide (state.current_round + 1 ≤ state.max_rounds))) (by omega)
            | none =>
              have h2 : (trace.apiCalls ++
                  [ht && decide (state.current_round + 1 ≤ state.max_rounds)]).count
                    true + fuel ≤ trace.apiCalls.count true + (fuel + 1) := by
                have := count_true_append_le trace.apiCalls
                  (ht && decide (state.current_round + 1 ≤ state.max_rounds))
                omega
              exact le_trans (ih (callIdx + 1) S _) h2

/-- Helper: one loop round in which the model requests a single tool block
whose dispatch succeeds advances to the next round with the assistant turn
and the tool-result turn appended, the execution logged, and one
tool-availability entry recorded in the call trace. -/
theorem loop_round_ok (client : Client) (et : ToolExec) (ht : Bool)
    (sys : String) (fuel callIdx : Nat) (state : ToolCallState)
    (trace : GenTrace) (r : Response) (b : ToolUseBlock) (s : String)
    (hnc : state.is_complete = false)
    (hcl : client callIdx = .ok r)
    (hstop : r.stop_reason = "tool_use")
    (hc : r.content = [.toolUse b])
    (hok : et b.name b.input = .ok s) :
    generate_loop client (some et) ht sys (fuel + 1) callIdx state trace =
      generate_loop client (some et) ht sys fuel (callIdx + 1)
        { current_round := state.current_round + 1,
          max_rounds := state.max_rounds,
          messages := state.messages ++
            [{ role := "assistant", content := .blocks r.content },
             { role := "user", content := (MsgContent.toolResults
               [{ tool_use_id := b.id, content := s, is_error := false }]) }],
          tools_executed := state.tools_executed ++
            ["Round " ++ toString (state.current_round + 1) ++ ": " ++ b.name] }
        { apiCalls := trace.apiCalls ++
            [ht && decide (state.current_round + 1 ≤ state.max_rounds)],
          dispatches := trace.dispatches ++ [b.name] } := by
  have hd : decide (r.stop_reason = "tool_use") = true := by rw [hstop]; rfl
  simp [generate_loop, hnc, hcl, hd, _execute_round_tools, hc, round_tools_loop,
    hok, ToolCallState.add_tool_execution]

/-- Helper: a completion-API raise inside the round loop is caught and
converted to the error answer; no tools are dispatched and no message is
appended. -/
theorem loop_round_apierror (client : Client) (et : Option ToolExec) (ht : Bool)
    (sys : String) (fuel callIdx : Nat) (state : ToolCallState) (trace : GenTrace)
    (e : String) (hnc : state.is_complete = false)
    (hcl : client callIdx = .error e) :
    generate_loop client et ht sys (fuel + 1) callIdx state trace =
      { answer := "Error generating response: " ++ e,
        state := { state with current_round := state.current_round + 1 },
        trace := { trace with apiCalls := trace.apiCalls ++
          [ht && decide (state.current_round + 1 ≤ state.max_rounds)] } } := by
  simp [generate_loop, hnc, hcl]

/-- Helper: two single-tool rounds whose dispatches succeed drive the loop
to the tools-disabled final call, with both rounds logged and both calls
recorded as tool-enabled. -/
theorem loop_two_tool_rounds_reach_final (client : Client) (et : ToolExec)
    (sys : String) (m0 : List Message) (r1 r2 : Response)
    (b1 b2 : ToolUseBlock) (s1 s2 : String)
    (h0 : client 0 = .ok r1) (hstop1 : r1.stop_reason = "tool_use")
    (hc1 : r1.content = [.toolUse b1]) (hok1 : et b1.name b1.input = .ok s1)
    (h1 : client 1 = .ok r2) (hstop2 : r2.stop_reason = "tool_use")
    (hc2 : r2.content = [.toolUse b2]) (hok2 : et b2.name b2.input = .ok s2) :
    generate_loop client (some et) true sys 2 0
      { current_round := 0, max_rounds := 2, messages := m0, tools_executed := [] }
      { apiCalls := [], dispatches := [] } =
    final_call client 2
      { current_round := 2, max_rounds := 2,
        messages := (m0 ++
          [{ role := "assistant", content := .blocks r1.content },
           { role := "user", content := (MsgContent.toolResults
             [{ tool_use_id := b1.id, content := s1, is_error := false }]) }]) ++
          [{ role := "assistant", content := .blocks r2.content },
           { role := "user", content := (MsgContent.toolResults
             [{ tool_use_id := b2.id, content := s2, is_error := false }]) }],
        tools_executed := ["Round 1: " ++ b1.name, "Round 2: " ++ b2.name] }
      { apiCalls := [true, true], dispatches := [b1.name, b2.name] } := by
  have hd1 : decide (r1.stop_reason = "tool_use") = true := by rw [hstop1]; rfl
  have hd2 : decide (r2.stop_reason = "tool_use") = true := by rw [hstop2]; rfl
  simp [generate_loop, ToolCallState.is_complete, h0, h1, hd1, hd2, hc1, hc2,
    _execute_round_tools, round_tools_loop, hok1, hok2,
    ToolCallState.add_tool_execution]
  rfl

/-- Helper: a final tools-disabled call that returns text yields that text
verbatim and records one tool-disabled call. -/
theorem final_call_ok (client : Client) (callIdx : Nat) (state : ToolCallState)
    (trace : GenTrace) (r : Response) (t : String) (rest : List ContentBlock)
    (hcl : client callIdx = .ok r) (hc : r.content = .text t :: rest) :
    final_call client callIdx state trace =
      { answer := t, state := state,
        trace := { trace with apiCalls := trace.apiCalls ++ [false] } } := by
  simp [final_call, hcl, hc, firstText]

/-- Helper: a final tools-disabled call that raises is converted to the
final-response error answer. -/
theorem final_call_err (client : Client) (callIdx : Nat) (state : ToolCallState)
    (trace : GenTrace) (e : String)
    (hcl : client callIdx = .error e) :
    final_call client callIdx state trace =
      { answer := "Error generating final response: " ++ e, state := state,
        trace := { trace with apiCalls := trace.apiCalls ++ [false] } } := by
  simp [final_call, hcl]

/-- C1: when the model requests one tool in round 1 and one in round 2 and
both dispatches succeed, exactly three completion-API calls are made — two
tool-enabled, then one with tools disabled whose text is returned — both
executed tool names appear in the tool log in execution order, and (for
every behaviour whatsoever) a caller can never observe more than two
tool-enabled calls. -/
theorem C1_two_tool_rounds (client : Client) (query : String)
    (hist : Option String) (ts : List String) (et : ToolExec)
    (r1 r2 r3 : Response) (b1 b2 : ToolUseBlock) (s1 s2 t : String)
    (rest : List ContentBlock)
    (hts : ts ≠ [])
    (h0 : client 0 = .ok r1) (hstop1 : r1.stop_reason = "tool_use")
    (hc1 : r1.content = [.toolUse b1]) (hok1 : et b1.name b1.input = .ok s1)
    (h1 : client 1 = .ok r2) (hstop2 : r2.stop_reason = "tool_use")
    (hc2 : r2.content = [.toolUse b2]) (hok2 : et b2.name b2.input = .ok s2)
    (h2 : client 2 = .ok r3) (hc3 : r3.content = .text t :: rest) :
    (generate_response client query hist (some ts) (some et)).trace.apiCalls =
      [true, true, false] ∧
    (generate_response client query hist (some ts) (some et)).answer = t ∧
    (generate_response client query hist (some ts) (some et)).state.tools_executed
      = ["Round 1: " ++ b1.name, "Round 2: " ++ b2.name] ∧
    (generate_response client query hist (some ts) (some et)).trace.dispatches =
      [b1.name, b2.name] ∧
    (∀ (c : Client) (q : String) (h : Option String)
        (tl : Option (List String)) (tm : Option ToolExec),
      ((generate_response c q h tl tm).trace.apiCalls.count true) ≤ 2) := by
  have hht : (!ts.isEmpty) = true := by
    cases ts with
    | nil => exact absurd rfl hts
    | cons a l => rfl
  have hgen : generate_response client query hist (some ts) (some et) =
      generate_loop client (some et) (!ts.isEmpty)
        (if truthyStr hist then
          SYSTEM_PROMPT ++ "\n\nPrevious conversation:\n" ++ hist.getD ""
        else SYSTEM_PROMPT) 2 0
        { current_round := 0, max_rounds := 2,
          messages := [{ role := "user", content := .text query }],
          tools_executed := [] }
        { apiCalls := [], dispatches := [] } := rfl
  rw [hht] at hgen
  have hreach := loop_two_tool_rounds_reach_final client et
    (if truthyStr hist then
      SYSTEM_PROMPT ++ "\n\nPrevious conversation:\n" ++ hist.getD ""
    else SYSTEM_PROMPT)
    [{ role := "user", content := .text query }] r1 r2 b1 b2 s1 s2
    h0 hstop1 hc1 hok1 h1 hstop2 hc2 hok2
  have hrun := hgen.trans (hreach.trans
    (final_call_ok client 2 _ _ r3 t rest h2 hc3))
  refine ⟨?_, ?_, ?_, ?_, ?_⟩
  · simp [hrun]
  · simp [hrun]
  · simp [hrun]
  · simp [hrun]
  · intro c q h tl tm
    cases tl with
    | none =>
      have hgen2 : generate_response c q h none tm =
          generate_loop c tm false
            (if truthyStr h then
              SYSTEM_PROMPT ++ "\n\nPrevious conversation:\n" ++ h.getD ""
            else SYSTEM_PROMPT) 2 0
            { current_round := 0, max_rounds := 2,
              messages := [{ role := "user", content := .text q }],
              tools_executed := [] }
            { apiCalls := [], dispatches := [] } := rfl
      rw [hgen2]
      simpa using generate_loop_count_le c tm false
        (if truthyStr h then
          SYSTEM_PROMPT ++ "\n\nPrevious conversation:\n" ++ h.getD ""
        else SYSTEM_PROMPT) 2 0
        { current_round := 0, max_rounds := 2,
          messages := [{ role := "user", content := .text q }],
          tools_executed := [] }
        { apiCalls := [], dispatches := [] }
    | some l =>
      have hgen2 : generate_response c q h (some l) tm =
          generate_loop c tm (!l.isEmpty)
            (if truthyStr h then
              SYSTEM_PROMPT ++ "\n\nPrevious conversation:\n" ++ h.getD ""
            else SYSTEM_PROMPT) 2 0
            { current_round := 0, max_rounds := 2,
              messages := [{ role := "user", content := .text q }],
              tools_executed := [] }
            { apiCalls := [], dispatches := [] } := rfl
      rw [hgen2]
      simpa using generate_loop_count_le c tm (!l.isEmpty)
        (if truthyStr h then
          SYSTEM_PROMPT ++ "\n\nPrevious conversation:\n" ++ h.getD ""
        else SYSTEM_PROMPT) 2 0
        { current_round := 0, max_rounds := 2,
          messages := [{ role := "user", content := .text q }],
          tools_executed := [] }
        { apiCalls := [], dispatches := [] }

/-- C1 witness: a client that invokes the search tool, then the outline
tool, then answers, observed through the whole engine. -/
theorem C1_two_tool_rounds_witness :
    (generate_response wClient3 "q" none (some ["t"]) (some wExecOk)).trace.apiCalls
      = [true, true, false] ∧
    (generate_response wClient3 "q" none (some ["t"]) (some wExecOk)).answer =
      "final answer" ∧
    (generate_response wClient3 "q" none (some ["t"]) (some wExecOk)).state.tools_executed
      = ["Round 1: search_course_content", "Round 2: get_course_outline"] := by
  have h := C1_two_tool_rounds wClient3 "q" none ["t"] wExecOk
    { content := [.toolUse { id := "i1", name := "search_course_content", input := "q1" }],
      stop_reason := "tool_use" }
    { content := [.toolUse { id := "i2", name := "get_course_outline", input := "q2" }],
      stop_reason := "tool_use" }
    { content := [.text "final answer"], stop_reason := "end_turn" }
    { id := "i1", name := "search_course_content", input := "q1" }
    { id := "i2", name := "get_course_outline", input := "q2" }
    "tool result" "tool result" "final answer" []
    (by simp) rfl rfl rfl rfl rfl rfl rfl rfl rfl rfl
  exact ⟨h.1, h.2.1, h.2.2.1.trans (by rfl)⟩

/-- C2 witness: a failing search-tool dispatch in round 1 observed through
the whole engine with one completion call and one dispatch. -/
theorem C2_round1_tool_failure_witness :
    (generate_response wClientBoom2 "q" none (some ["t"]) (some wExecBoom)).answer
      = "Unable to complete search: Tool search_course_content failed: boom-search_course_content" ∧
    (generate_response wClientBoom2 "q" none (some ["t"]) (some wExecBoom)).trace.apiCalls.length
      = 1 ∧
    (generate_response wClientBoom2 "q" none (some ["t"]) (some wExecBoom)).trace.dispatches
      = ["search_course_content"] := by
  have h := C2_round1_tool_failure wClientBoom2 "q" none (some ["t"]) wExecBoom
    { content := [.toolUse { id := "i1", name := "search_course_content", input := "q1" }],
      stop_reason := "tool_use" }
    [] { id := "i1", name := "search_course_content", input := "q1" } []
    "boom-search_course_content"
    rfl rfl rfl (by intro b hb; exact absurd hb (List.not_mem_nil b)) rfl
  exact ⟨h.1.trans (by rfl), h.2.1, h.2.2.1.trans (by rfl)⟩

/-- Helper: a successful single-tool round followed by a completion-API
raise in round 2 yields the error answer. -/
theorem loop_round_then_apierror (client : Client) (et : ToolExec)
    (sys : String) (m0 : List Message) (r1 : Response) (b1 : ToolUseBlock)
    (s1 e : String)
    (h0 : client 0 = .ok r1) (hstop1 : r1.stop_reason = "tool_use")
    (hc1 : r1.content = [.toolUse b1]) (hok1 : et b1.name b1.input = .ok s1)
    (h1e : client 1 = .error e) :
    (generate_loop client (some et) true sys 2 0
      { current_round := 0, max_rounds := 2, messages := m0, tools_executed := [] }
      { apiCalls := [], dispatches := [] }).answer =
    "Error generating response: " ++ e := by
  have hd1 : decide (r1.stop_reason = "tool_use") = true := by rw [hstop1]; rfl
  simp [generate_loop, ToolCallState.is_complete, h0, h1e, hd1, hc1,
    _execute_round_tools, round_tools_loop, hok1,
    ToolCallState.add_tool_execution]

/-- Helper: two successful tool rounds followed by a raise of the final
tools-disabled call yield the final-response error answer. -/
theorem loop_two_rounds_then_final_error (client : Client) (et : ToolExec)
    (sys : String) (m0 : List Message) (r1 r2 : Response)
    (b1 b2 : ToolUseBlock) (s1 s2 e : String)
    (h0 : client 0 = .ok r1) (hstop1 : r1.stop_reason = "tool_use")
    (hc1 : r1.content = [.toolUse b1]) (hok1 : et b1.name b1.input = .ok s1)
    (h1 : client 1 = .ok r2) (hstop2 : r2.stop_reason = "tool_use")
    (hc2 : r2.content = [.toolUse b2]) (hok2 : et b2.name b2.input = .ok s2)
    (h2e : client 2 = .error e) :
    (generate_loop client (some et) true sys 2 0
      { current_round := 0, max_rounds := 2, messages := m0, tools_executed := [] }
      { apiCalls := [], dispatches := [] }).answer =
    "Error generating final response: " ++ e := by
  rw [loop_two_tool_rounds_reach_final client et sys m0 r1 r2 b1 b2 s1 s2
    h0 hstop1 hc1 hok1 h1 hstop2 hc2 hok2,
    final_call_err client 2 _ _ e h2e]

/-- C3: for every query, history, tool configuration and collaborator
behaviour, `generate_response` produces an answer string; a completion-API
raise in round 1 or round 2, and a raise of the final tools-disabled call,
are each converted into a textual error answer rather than propagating. -/
theorem C3_error_conversion :
    (∀ (client : Client) (query : String) (hist : Option String)
        (tools : Option (List String)) (tm : Option ToolExec),
      ∃ s, (generate_response client query hist tools tm).answer = s) ∧
    (∀ (client : Client) (query : String) (hist : Option String)
        (tools : Option (List String)) (tm : Option ToolExec) (e : String),
      client 0 = .error e →
      (generate_response client query hist tools tm).answer =
        "Error generating response: " ++ e) ∧
    (∀ (client : Client) (query : String) (hist : Option String)
        (ts : List String) (et : ToolExec) (r1 : Response) (b1 : ToolUseBlock)
        (s1 e : String),
      ts ≠ [] → client 0 = .ok r1 → r1.stop_reason = "tool_use" →
      r1.content = [.toolUse b1] → et b1.name b1.input = .ok s1 →
      client 1 = .error e →
      (generate_response client query hist (some ts) (some et)).answer =
        "Error generating response: " ++ e) ∧
    (∀ (client : Client) (query : String) (hist : Option String)
        (ts : List String) (et : ToolExec) (r1 r2 : Response)
        (b1 b2 : ToolUseBlock) (s1 s2 e : String),
      ts ≠ [] → client 0 = .ok r1 → r1.stop_reason = "tool_use" →
      r1.content = [.toolUse b1] → et b1.name b1.input = .ok s1 →
      client 1 = .ok r2 → r2.stop_reason = "tool_use" →
      r2.content = [.toolUse b2] → et b2.name b2.input = .ok s2 →
      client 2 = .error e →
      (generate_response client query hist (some ts) (some et)).answer =
        "Error generating final response: " ++ e) := by
  refine ⟨?_, ?_, ?_, ?_⟩
  · intro client query hist tools tm
    exact ⟨_, rfl⟩
  · intro client query hist tools tm e h
    simp [generate_response, generate_loop, ToolCallState.is_complete, h]
  · intro client query hist ts et r1 b1 s1 e hts h0 hstop1 hc1 hok1 h1e
    have hht : (!ts.isEmpty) = true := by
      cases ts with
      | nil => exact absurd rfl hts
      | cons a l => rfl
    have hgen : generate_response client query hist (some ts) (some et) =
        generate_loop client (some et) (!ts.isEmpty)
          (if truthyStr hist then
            SYSTEM_PROMPT ++ "\n\nPrevious conversation:\n" ++ hist.getD ""
          else SYSTEM_PROMPT) 2 0
          { current_round := 0, max_rounds := 2,
            messages := [{ role := "user", content := .text query }],
            tools_executed := [] }
          { apiCalls := [], dispatches := [] } := rfl
    rw [hht] at hgen
    rw [hgen]
    exact loop_round_then_apierror client et
      (if truthyStr hist then
        SYSTEM_PROMPT ++ "\n\nPrevious conversation:\n" ++ hist.getD ""
      else SYSTEM_PROMPT)
      [{ role := "user", content := .text query }] r1 b1 s1 e
      h0 hstop1 hc1 hok1 h1e
  · intro client query hist ts et r1 r2 b1 b2 s1 s2 e hts h0 hstop1 hc1 hok1
      h1 hstop2 hc2 hok2 h2e
    have hht : (!ts.isEmpty) = true := by
      cases ts with
      | nil => exact absurd rfl hts
      | cons a l => rfl
    have hgen : generate_response client query hist (some ts) (some et) =
        generate_loop client (some et) (!ts.isEmpty)
          (if truthyStr hist then
            SYSTEM_PROMPT ++ "\n\nPrevious conversation:\n" ++ hist.getD ""
          else SYSTEM_PROMPT) 2 0
          { current_round := 0, max_rounds := 2,
            messages := [{ role := "user", content := .text query }],
            tools_executed := [] }
          { apiCalls := [], dispatches := [] } := rfl
    rw [hht] at hgen
    rw [hgen]
    exact loop_two_rounds_then_final_error client et
      (if truthyStr hist then
        SYSTEM_PROMPT ++ "\n\nPrevious conversation:\n" ++ hist.getD ""
      else SYSTEM_PROMPT)
      [{ role := "user", content := .text query }] r1 r2 b1 b2 s1 s2 e
      h0 hstop1 hc1 hok1 h1 hstop2 hc2 hok2 h2e

/-- C3 witness: the error-conversion conjuncts instantiated at clients that
raise on call 0, on call 1 after a tool round, and on the final
tools-disabled call. -/
theorem C3_error_conversion_witness :
    (generate_response wClientBoom "q" none none none).answer =
      "Error generating response: api-boom" ∧
    (generate_response wClientBoom2 "q" none (some ["t"]) (some wExecOk)).answer
      = "Error generating response: api-boom-2" ∧
    (generate_response wClientBoomFinal "q" none (some ["t"]) (some wExecOk)).answer
      = "Error generating final response: api-boom-final" := by
  refine ⟨C3_error_conversion.2.1 wClientBoom "q" none none none "api-boom" rfl,
    ?_, ?_⟩
  · exact C3_error_conversion.2.2.1 wClientBoom2 "q" none ["t"] wExecOk
      { content := [.toolUse { id := "i1", name := "search_course_content", input := "q1" }],
        stop_reason := "tool_use" }
      { id := "i1", name := "search_course_content", input := "q1" }
      "tool result" "api-boom-2" (by simp) rfl rfl rfl rfl rfl
  · exact C3_error_conversion.2.2.2 wClientBoomFinal "q" none ["t"] wExecOk
      { content := [.toolUse { id := "i", name := "search_course_content", input := "q" }],
        stop_reason := "tool_use" }
      { content := [.toolUse { id := "i", name := "search_course_content", input := "q" }],
        stop_reason := "tool_use" }
      { id := "i", name := "search_course_content", input := "q" }
      { id := "i", name := "search_course_content", input := "q" }
      "tool result" "tool result" "api-boom-final" (by simp) rfl rfl rfl rfl
      rfl rfl rfl rfl rfl

end RagChat
